import Mathlib

/-!
Verification of the Everly conversational-assistant core.

The definitions below are a shallow embedding of the TypeScript source:

* `src/lib/utils/similarity.ts` — the similarity engine
  (`levenshteinDistance`, `calculateSimilarity`, `findBestMatch`,
  `findSimilarItems`);
* `src/lib/ai/tools.ts` — the three user-scoped tools (`addItem`,
  `listItems`, `toggleItem`) over an explicit store state `Db`;
* the `useAIAssistant` hook — the newline-delimited stream decoder
  (`splitNl`, `feedAll`, `runDecoder`) and the conversation session state
  machine (`sendMessage`).

JavaScript strings are Lean `String`s; `toLowerCase`/`trim` are modelled
by `lowerStr`/`trimStr` over the character list; JavaScript numbers used
as similarity scores are exact rationals (`ℚ`); database uuid keys are
`Nat`; timestamps are a logical clock `Db.now`.  Fallible database calls
never fail in the model, so the `catch` branches of the tools are not
represented.
-/

namespace Everly

/-- JavaScript `String.prototype.toLowerCase`, character by character. -/
def lowerStr (s : String) : String :=
  String.mk (s.data.map Char.toLower)

/-- JavaScript `String.prototype.trim`: strip leading and trailing
whitespace. -/
def trimStr (s : String) : String :=
  String.mk (((s.data.dropWhile Char.isWhitespace).reverse.dropWhile Char.isWhitespace).reverse)

/-- Inner loop of the Levenshtein dynamic program
(`src/lib/utils/similarity.ts` lines 28-37): given the row character `c1`,
the remaining characters of `str2`, the tail of the previous matrix row
(`up` is `matrix[i-1][j]`), the diagonal `matrix[i-1][j-1]` and the value
to the left `matrix[i][j-1]`, produce the rest of row `i`. -/
def levRowAux (c1 : Char) : List Char → List Nat → Nat → Nat → List Nat
  | [], _, _, _ => []
  | _ :: _, [], _, _ => []
  | c2 :: cs, up :: ups, diag, left =>
      let cost := if c1 = c2 then 0 else 1
      let v := min (up + 1) (min (left + 1) (diag + cost))
      v :: levRowAux c1 cs ups up v

/-- Row `i` of the Levenshtein matrix from row `i-1`
(`matrix[i][0] = i`, then the standard min-of-three recurrence). -/
def levRow (c1 : Char) (str2 : List Char) (prev : List Nat) (i : Nat) : List Nat :=
  match prev with
  | [] => [i]
  | d :: ups => i :: levRowAux c1 str2 ups d i

/-- Iterate `levRow` over the characters of `str1`, starting from the
initialisation row `matrix[0][j] = j`. -/
def levRows (str2 : List Char) : List Char → List Nat → Nat → List Nat
  | [], row, _ => row
  | c :: cs, row, i => levRows str2 cs (levRow c str2 row i) (i + 1)

/-- `levenshteinDistance` from `src/lib/utils/similarity.ts` lines 14-40:
the bottom-right cell `matrix[len1][len2]` of the dynamic program. -/
def levenshteinDistance (str1 str2 : List Char) : Nat :=
  (levRows str2 str1 (List.range (str2.length + 1)) 1).getLastD 0

/-- `calculateSimilarity` from `src/lib/utils/similarity.ts` lines 47-60.
JavaScript `!str` holds exactly on the empty string, so the guard returns
0 whenever either argument is empty — including for two empty strings. -/
def calculateSimilarity (str1 str2 : String) : ℚ :=
  if str1 = "" ∨ str2 = "" then 0
  else
    let normalized1 := trimStr (lowerStr str1)
    let normalized2 := trimStr (lowerStr str2)
    if normalized1 = normalized2 then 1
    else
      let maxLen := max normalized1.data.length normalized2.data.length
      if maxLen = 0 then 1
      else 1 - (levenshteinDistance normalized1.data normalized2.data : ℚ) / (maxLen : ℚ)

/-- Item status enum (`item_status` in `src/lib/db/schema.ts`). -/
inductive Status
  | todo
  | done
  deriving Repr, DecidableEq

/-- Item priority enum (`item_priority` in `src/lib/db/schema.ts`). -/
inductive Priority
  | low
  | medium
  | high
  deriving Repr, DecidableEq

/-- A row of the `items` table (`src/lib/db/schema.ts` plus the
`actionId`/`imageUrl`/`metadata` columns written by `addItem`).  Uuid keys
are modelled as `Nat`, timestamps as a logical clock. -/
structure Item where
  id : Nat
  userId : Nat
  categoryId : Nat
  title : String
  description : Option String
  status : Status
  priority : Option Priority
  url : Option String
  location : Option String
  note : Option String
  targetDate : Option String
  actionId : Option Nat
  imageUrl : Option String
  metadata : Option String
  createdAt : Nat
  updatedAt : Nat
  deriving Repr, DecidableEq

/-- Accumulator loop of `findBestMatch` (`src/lib/utils/similarity.ts`
lines 76-82): keep a candidate only if its score is strictly above the
running best and at least the threshold. -/
def findBestMatchLoop (query : String) (threshold : ℚ) :
    List Item → Option Item → ℚ → Option Item
  | [], best, _ => best
  | item :: rest, best, bestScore =>
      let score := calculateSimilarity query item.title
      if bestScore < score ∧ threshold ≤ score then
        findBestMatchLoop query threshold rest (some item) score
      else
        findBestMatchLoop query threshold rest best bestScore

/-- `findBestMatch` from `src/lib/utils/similarity.ts` lines 66-85 (the
call sites always pass the threshold explicitly). -/
def findBestMatch (query : String) (items : List Item) (threshold : ℚ) : Option Item :=
  if items.isEmpty then none
  else findBestMatchLoop query threshold items none 0

/-- `findSimilarItems` from `src/lib/utils/similarity.ts` lines 91-108:
all items whose title scores at least the threshold, in list order. -/
def findSimilarItems (title : String) (items : List Item) (threshold : ℚ) : List Item :=
  if items.isEmpty then []
  else items.filter (fun item => decide (threshold ≤ calculateSimilarity title item.title))

theorem findSimilarItems_eq_filter (title : String) (items : List Item) (threshold : ℚ) :
    findSimilarItems title items threshold =
      items.filter (fun item => decide (threshold ≤ calculateSimilarity title item.title)) := by
  cases items with
  | nil => rfl
  | cons x xs => rfl

/-- Insert an item into a list that is sorted by `createdAt` descending,
keeping earlier-listed items first on ties. -/
def insertByCreatedDesc (x : Item) : List Item → List Item
  | [] => [x]
  | y :: ys => if x.createdAt ≤ y.createdAt then y :: insertByCreatedDesc x ys else x :: y :: ys

/-- The `orderBy(desc(items.createdAt))` clause of the tools' queries,
as a stable insertion sort. -/
def sortByCreatedDesc : List Item → List Item
  | [] => []
  | x :: xs => insertByCreatedDesc x (sortByCreatedDesc xs)

/-- A row of the `categories` table, restricted to the columns the tools
read. -/
structure Category where
  id : Nat
  name : String
  deriving Repr, DecidableEq

/-- A row of the `actions` table, restricted to the columns the tools
read. -/
structure ActionRow where
  id : Nat
  name : String
  deriving Repr, DecidableEq

/-- The wishlist store reachable through `getDb()`: the three tables the
tools touch, a fresh-uuid supply for inserts, and a logical clock for
`defaultNow`/`new Date()` timestamps. -/
structure Db where
  items : List Item
  categories : List Category
  actions : List ActionRow
  nextId : Nat
  now : Nat
  deriving Repr, DecidableEq

/-- `mapCategoryToAction` from `src/lib/ai/tools.ts` lines 19-43. -/
def mapCategoryToAction (categoryName : String) : String :=
  let lowerName := lowerStr categoryName
  match lowerName with
  | "movies" => "watch"
  | "shows" => "watch"
  | "watch" => "watch"
  | "tv" => "watch"
  | "series" => "watch"
  | "books" => "read"
  | "read" => "read"
  | "reading" => "read"
  | "places" => "visit"
  | "travel" => "visit"
  | "visit" => "visit"
  | "destinations" => "visit"
  | "restaurants" => "try"
  | "food" => "try"
  | "try" => "try"
  | "experiences" => "try"
  | _ => lowerName

/-- `getActionIdForCategory` from `src/lib/ai/tools.ts` lines 49-80:
look up the category name, map it to an action name, and look up that
action (`limit(1)` on both queries is the `head?`). -/
def getActionIdForCategory (db : Db) (categoryId : Nat) : Option Nat :=
  match (db.categories.filter (fun c => c.id == categoryId)).head? with
  | none => none
  | some category =>
      let actionName := mapCategoryToAction category.name
      match (db.actions.filter (fun a => a.name == actionName)).head? with
      | none => none
      | some action => some action.id

/-- Validated arguments of `addItem` (`addItemSchema`). -/
structure AddItemArgs where
  title : String
  categoryId : Nat
  description : Option String
  location : Option String
  url : Option String
  targetDate : Option String
  priority : Option Priority
  note : Option String
  deriving Repr, DecidableEq

/-- The `data` payload of an `addItem` result. -/
inductive AddItemData
  | similar (similarItems : List (Nat × String))
  | created (itemId : Nat)
  | null
  deriving Repr, DecidableEq

/-- The result object returned by `addItem.execute`. -/
structure AddItemResult where
  success : Bool
  data : AddItemData
  message : String
  error : Option String
  deriving Repr, DecidableEq

/-- The string value of a status enum member, as interpolated into
messages. -/
def statusStr : Status → String
  | Status.todo => "todo"
  | Status.done => "done"

/-- `addItem.execute` from `src/lib/ai/tools.ts` lines 114-202, bound to
the caller identity `userId`.  The `catch` branch is unreachable in the
model (store calls are total). -/
def addItem (userId : Nat) (db : Db) (args : AddItemArgs) : AddItemResult × Db :=
  let existingItems := db.items.filter (fun it =>
    it.userId == userId && (it.categoryId == args.categoryId && it.status == Status.todo))
  let similarItems := findSimilarItems args.title existingItems (8/10)
  if 0 < similarItems.length then
    ({ success := false,
       data := AddItemData.similar (similarItems.map (fun it => (it.id, it.title))),
       message := "I found similar items already in your wishlist: " ++
         String.intercalate ", " (similarItems.map (fun it => "\"" ++ it.title ++ "\"")) ++
         ". Did you mean one of these, or would you like to add this as a new item?",
       error := some "Potential duplicate detected" }, db)
  else
    let actionId := getActionIdForCategory db args.categoryId
    let newItem : Item :=
      { id := db.nextId, userId := userId, categoryId := args.categoryId,
        title := args.title, description := args.description, status := Status.todo,
        priority := args.priority, url := args.url, location := args.location,
        note := args.note, targetDate := args.targetDate, actionId := actionId,
        imageUrl := none, metadata := none, createdAt := db.now, updatedAt := db.now }
    ({ success := true, data := AddItemData.created newItem.id,
       message := "Added \"" ++ args.title ++ "\" to your wishlist!", error := none },
     { db with items := newItem :: db.items, nextId := db.nextId + 1, now := db.now + 1 })

/-- Validated arguments of `listItems` (`listItemsSchema`). -/
structure ListItemsArgs where
  categoryId : Option Nat
  status : Option Status
  query : Option String
  limit : Option Nat
  deriving Repr, DecidableEq

/-- One entry of the `formattedItems` array `listItems` returns. -/
structure ListItemRow where
  id : Nat
  title : String
  categoryId : Nat
  description : Option String
  location : Option String
  status : Status
  createdAt : Nat
  deriving Repr, DecidableEq

/-- The `data` payload of a successful `listItems` result. -/
structure ListItemsData where
  items : List ListItemRow
  count : Nat
  deriving Repr, DecidableEq

/-- The result object returned by `listItems.execute`. -/
structure ListItemsResult where
  success : Bool
  data : Option ListItemsData
  message : String
  error : Option String
  deriving Repr, DecidableEq

/-- Does the character list `needle` occur at the start of `hay`? -/
def charsStartWith : List Char → List Char → Bool
  | _, [] => true
  | [], _ :: _ => false
  | h :: hs, n :: ns => h == n && charsStartWith hs ns

/-- JavaScript `String.prototype.includes` over character lists. -/
def charsContain : List Char → List Char → Bool
  | [], needle => needle.isEmpty
  | h :: hs, needle => charsStartWith (h :: hs) needle || charsContain hs needle

/-- JavaScript `hay.includes(needle)` on strings. -/
def containsSub (hay needle : String) : Bool :=
  charsContain hay.data needle.data

/-- The text-search predicate of `listItems` (`src/lib/ai/tools.ts` lines
237-244): title, description or location contains the lowercased query;
a `null` field short-circuits to false. -/
def matchesQueryJs (lowerQuery : String) (it : Item) : Bool :=
  containsSub (lowerStr it.title) lowerQuery ||
  (match it.description with
   | some d => containsSub (lowerStr d) lowerQuery
   | none => false) ||
  (match it.location with
   | some l => containsSub (lowerStr l) lowerQuery
   | none => false)

/-- Projection of an item to the shape `listItems` returns. -/
def formatRow (it : Item) : ListItemRow :=
  { id := it.id, title := it.title, categoryId := it.categoryId,
    description := it.description, location := it.location,
    status := it.status, createdAt := it.createdAt }

/-- JavaScript `limit || 50`: `0` is falsy, so a zero limit falls back to
the default. -/
def jsOrDefaultNat (limit : Option Nat) (d : Nat) : Nat :=
  match limit with
  | some l => if l = 0 then d else l
  | none => d

/-- `listItems.execute` from `src/lib/ai/tools.ts` lines 204-283, bound to
the caller identity `userId`.  Note the database `limit` applies before
the in-memory text filter, exactly as in the source. -/
def listItems (userId : Nat) (db : Db) (args : ListItemsArgs) : ListItemsResult :=
  let effectiveStatus := args.status.getD Status.todo
  let effectiveLimit := jsOrDefaultNat args.limit 50
  let conds := fun (it : Item) =>
    it.userId == userId &&
    ((match args.categoryId with
      | some c => it.categoryId == c
      | none => true) &&
     it.status == effectiveStatus)
  let fetched := (sortByCreatedDesc (db.items.filter conds)).take effectiveLimit
  let result :=
    match args.query with
    | some q => if q = "" then fetched else fetched.filter (matchesQueryJs (lowerStr q))
    | none => fetched
  if result.length = 0 then
    { success := true, data := some { items := [], count := 0 },
      message := (match args.categoryId with
        | some _ => "You don\x27t have any " ++ statusStr effectiveStatus ++ " items in that category yet."
        | none => "You don\x27t have any " ++ statusStr effectiveStatus ++ " items yet."),
      error := none }
  else
    let formattedItems := result.map formatRow
    { success := true,
      data := some { items := formattedItems, count := formattedItems.length },
      message := "You have " ++ toString formattedItems.length ++ " " ++
        statusStr effectiveStatus ++ " item" ++
        (if formattedItems.length = 1 then "" else "s") ++
        (match args.categoryId with
         | some _ => " in that category"
         | none => "") ++ ".",
      error := none }

/-- Validated arguments of `toggleItem` (`toggleItemSchema`). -/
structure ToggleItemArgs where
  identifier : String
  newStatus : Option Status
  deriving Repr, DecidableEq

/-- The `data` payload of a successful `toggleItem` result. -/
structure ToggleData where
  itemId : Nat
  newStatus : Status
  title : String
  deriving Repr, DecidableEq

/-- The result object returned by `toggleItem.execute`. -/
structure ToggleItemResult where
  success : Bool
  data : Option ToggleData
  message : String
  error : Option String
  deriving Repr, DecidableEq

/-- `toggleItem.execute` from `src/lib/ai/tools.ts` lines 285-354, bound
to the caller identity `userId`: fetch all of the caller's items (any
status) newest-first, resolve the identifier with `findBestMatch` at
threshold 0.6, and flip or set the matched item's status. -/
def toggleItem (userId : Nat) (db : Db) (args : ToggleItemArgs) : ToggleItemResult × Db :=
  let userItems := sortByCreatedDesc (db.items.filter (fun it => it.userId == userId))
  if userItems.isEmpty then
    ({ success := false, data := none,
       message := "Your wishlist is empty. Add some items first!",
       error := some "No items found" }, db)
  else
    match findBestMatch args.identifier userItems (6/10) with
    | none =>
        ({ success := false, data := none,
           message := "I couldn\x27t find an item matching \"" ++ args.identifier ++
             "\". Could you be more specific or check the title?",
           error := some ("No match found for \"" ++ args.identifier ++ "\"") }, db)
    | some m =>
        let targetStatus :=
          args.newStatus.getD (if m.status == Status.todo then Status.done else Status.todo)
        let updatedItem : Item := { m with status := targetStatus, updatedAt := db.now }
        ({ success := true,
           data := some { itemId := updatedItem.id, newStatus := targetStatus,
                          title := updatedItem.title },
           message := "Marked \"" ++ updatedItem.title ++ "\" as " ++
             statusStr targetStatus ++ "!",
           error := none },
         { db with
             items := db.items.map (fun it =>
               if it.id == m.id then { it with status := targetStatus, updatedAt := db.now } else it),
             now := db.now + 1 })

/-- Extend the first complete line of a split with a character, or, when
no line is complete yet, extend the remainder. -/
def consFirst (c : Char) : List (List Char) × List Char → List (List Char) × List Char
  | ([], r) => ([], c :: r)
  | (l :: ls, r) => ((c :: l) :: ls, r)

/-- One `buffer.split('\n')` / `buffer = lines.pop() || ''` step of the
stream decoder (`useAIAssistant.sendMessage` lines 81-85), functionally:
the newline-terminated complete lines of `s` in order, paired with the
residual text after the last newline. -/
def splitNl : List Char → List (List Char) × List Char
  | [] => ([], [])
  | c :: cs =>
      if c = '\n' then ([] :: (splitNl cs).1, (splitNl cs).2)
      else consFirst c (splitNl cs)

/-- The decoder's read loop over a sequence of delivered chunks: each
chunk is appended to the carried buffer, complete lines are emitted, and
the residual is carried to the next read. -/
def feedAll : List (List Char) → List Char → List (List Char) × List Char
  | [], buf => ([], buf)
  | chunk :: rest, buf =>
      ((splitNl (buf ++ chunk)).1 ++ (feedAll rest (splitNl (buf ++ chunk)).2).1,
       (feedAll rest (splitNl (buf ++ chunk)).2).2)

/-- A decoded stream frame (the `part.type` dispatch of
`useAIAssistant.sendMessage` lines 94-132). -/
inductive StreamPart
  | textDelta (text : String)
  | toolCall (toolName : String)
  | toolResult (toolName : String) (outputMessage : Option String) (outputSuccess : Bool)
  | other
  deriving Repr, DecidableEq

/-- Effect of one decoded line on the accumulating assistant message
content (`useAIAssistant.sendMessage` lines 87-136): blank lines are
skipped, unparseable lines are logged and skipped (`parse` returning
`none`), `text-delta` appends its text, `tool-result` appends its output
message when present. -/
def processLine (parse : String → Option StreamPart) (content : String) (line : List Char) : String :=
  if trimStr (String.mk line) = "" then content
  else
    match parse (String.mk line) with
    | none => content
    | some (StreamPart.textDelta t) => content ++ t
    | some (StreamPart.toolCall _) => content
    | some (StreamPart.toolResult _ outputMessage _) =>
        match outputMessage with
        | some msg => content ++ msg
        | none => content
    | some StreamPart.other => content

/-- The assistant message content accumulated by the decoder over a
chunked stream, starting from the empty assistant message. -/
def runDecoder (parse : String → Option StreamPart) (chunks : List (List Char)) : String :=
  ((feedAll chunks []).1).foldl (processLine parse) ""

/-- Message role (`Message` in `src/types/ai`). -/
inductive Role
  | user
  | assistant
  | system
  deriving Repr, DecidableEq

/-- A conversation message; `error` marks the synthetic error reply. -/
structure Message where
  id : Nat
  role : Role
  content : String
  error : Bool
  deriving Repr, DecidableEq

/-- The `useAIAssistant` hook state: message log, draft input, streaming
flag. -/
structure ConvState where
  messages : List Message
  input : String
  isStreaming : Bool
  deriving Repr, DecidableEq

/-- The transport-level outcome of one submission: the fetch promise
rejects, the response is not ok, the response has no body, or a stream is
delivered whose reads yield `chunks` and then either complete (`readFails
= false`) or throw (`readFails = true`). -/
inductive FetchOutcome
  | rejected
  | notOk
  | noBody
  | streamed (chunks : List (List Char)) (readFails : Bool)
  deriving Repr, DecidableEq

/-- The synthetic error reply appended by the `catch` block. -/
def errorReplyText : String := "Sorry, I encountered an error. Please try again."

/-- The `catch`/`finally` tail of `sendMessage` (lines 138-152): append
one error-flagged assistant message and drop the streaming flag. -/
def failTurn (st : ConvState) (now : Nat) : ConvState :=
  { st with
      messages := st.messages ++
        [{ id := now + 1, role := Role.assistant, content := errorReplyText, error := true }],
      isStreaming := false }

/-- `useAIAssistant.sendMessage` (lines 21-153) as a state transition on
the hook state, parameterised by the transport outcome of the turn and
the frame parser.  `now` stands for `Date.now()` at submission time. -/
def sendMessage (parse : String → Option StreamPart) (now : Nat)
    (st : ConvState) (outcome : FetchOutcome) : ConvState :=
  if trimStr st.input = "" ∨ st.isStreaming = true then st
  else
    let userMessage : Message :=
      { id := now, role := Role.user, content := trimStr st.input, error := false }
    let afterSubmit : ConvState :=
      { messages := st.messages ++ [userMessage], input := "", isStreaming := true }
    match outcome with
    | FetchOutcome.rejected => failTurn afterSubmit now
    | FetchOutcome.notOk => failTurn afterSubmit now
    | FetchOutcome.noBody => failTurn afterSubmit now
    | FetchOutcome.streamed chunks readFails =>
        let assistantMessage : Message :=
          { id := now + 1, role := Role.assistant, content := runDecoder parse chunks,
            error := false }
        let afterStream : ConvState :=
          { afterSubmit with messages := afterSubmit.messages ++ [assistantMessage] }
        if readFails then failTurn afterStream now
        else { afterStream with isStreaming := false }

/-- Number of assistant-role messages in a log. -/
def assistantCount (msgs : List Message) : Nat :=
  (msgs.filter (fun m => m.role == Role.assistant)).length

/-- Number of error-flagged messages in a log. -/
def errorCount (msgs : List Message) : Nat :=
  (msgs.filter (fun m => m.error)).length

/-- CORRECTED C9 (counterexample): the similarity of the empty string with
itself is 0, not 1.0 — `calculateSimilarity` short-circuits on any empty
argument before the equality check. -/
theorem calculateSimilarity_empty_self_ne_one :
    calculateSimilarity "" "" ≠ 1 := by
  have h : calculateSimilarity "" "" = 0 := by
    simp [calculateSimilarity]
  rw [h]
  norm_num

/-- C9 (amended): for every nonempty string `s`,
`calculateSimilarity s s = 1.0`; the empty string is the one exception
(it scores 0 with itself). -/
theorem calculateSimilarity_self (s : String) (h : s ≠ "") :
    calculateSimilarity s s = 1 := by
  rw [calculateSimilarity, if_neg (by simp [h]), if_pos rfl]

/-- Witness for `calculateSimilarity_self` at `s = "a"`. -/
theorem calculateSimilarity_self_witness :
    "a" ≠ "" ∧ calculateSimilarity "a" "a" = 1 :=
  ⟨by decide, calculateSimilarity_self "a" (by decide)⟩

/-- C8: a submission attempted while a turn is in flight, or whose draft
input trims to empty, is rejected: the hook state (message log, draft
input, streaming flag) is left entirely unchanged. -/
theorem sendMessage_rejects_busy_or_blank (parse : String → Option StreamPart) (now : Nat)
    (st : ConvState) (outcome : FetchOutcome)
    (h : trimStr st.input = "" ∨ st.isStreaming = true) :
    sendMessage parse now st outcome = st := by
  rw [sendMessage, if_pos h]

/-- Witness for `sendMessage_rejects_busy_or_blank`: a second submission
while streaming leaves the state unchanged. -/
theorem sendMessage_rejects_busy_or_blank_witness :
    sendMessage (fun _ => none) 0 { messages := [], input := "hi", isStreaming := true }
        FetchOutcome.rejected =
      { messages := [], input := "hi", isStreaming := true } :=
  sendMessage_rejects_busy_or_blank (fun _ => none) 0
    { messages := [], input := "hi", isStreaming := true } FetchOutcome.rejected
    (Or.inr rfl)

/-- An idle hook state with a pending draft, used to exhibit the failure
behaviour of `sendMessage`. -/
def draftState : ConvState := { messages := [], input := "buy milk", isStreaming := false }

/-- CORRECTED C5 (counterexample): after a transport failure the draft
input is NOT preserved for retry — `sendMessage` clears it at submission
(`setInput('')`) and the `catch` path never restores it. -/
theorem sendMessage_draft_not_preserved :
    (sendMessage (fun _ => none) 0 draftState FetchOutcome.rejected).input ≠ draftState.input := by
  decide

/-- C5 (amended): on every transport-level failure (request rejected,
non-ok response, missing body, or a stream read that throws) an accepted
submission appends exactly one synthetic error-flagged assistant message,
returns the session to idle (`isStreaming = false`), and leaves the draft
input cleared — it is not restored for retry. -/
theorem sendMessage_failure_single_error (parse : String → Option StreamPart) (now : Nat)
    (st : ConvState) (outcome : FetchOutcome)
    (hin : trimStr st.input ≠ "") (hstr : st.isStreaming = false)
    (hfail : outcome = FetchOutcome.rejected ∨ outcome = FetchOutcome.notOk ∨
      outcome = FetchOutcome.noBody ∨ ∃ chunks, outcome = FetchOutcome.streamed chunks true) :
    errorCount (sendMessage parse now st outcome).messages = errorCount st.messages + 1 ∧
    (sendMessage parse now st outcome).isStreaming = false ∧
    (sendMessage parse now st outcome).input = "" := by
  rw [sendMessage, if_neg (by simp [hin, hstr])]
  rcases hfail with h | h | h | ⟨chunks, h⟩ <;> subst h <;>
    simp [failTurn, errorCount, List.filter_append]

/-- Witness for `sendMessage_failure_single_error`: a rejected request on
an idle state with draft "buy milk" yields one error message, idle state,
empty input. -/
theorem sendMessage_failure_single_error_witness :
    errorCount (sendMessage (fun _ => none) 0 draftState FetchOutcome.rejected).messages =
        errorCount draftState.messages + 1 ∧
      (sendMessage (fun _ => none) 0 draftState FetchOutcome.rejected).isStreaming = false ∧
      (sendMessage (fun _ => none) 0 draftState FetchOutcome.rejected).input = "" :=
  sendMessage_failure_single_error (fun _ => none) 0 draftState FetchOutcome.rejected
    (by decide) rfl (Or.inl rfl)

/-- CORRECTED C6 (counterexample): when a stream read throws after the
assistant message was created, the turn appends TWO assistant messages
(the partial assistant message and the synthetic error message), not
exactly one. -/
theorem sendMessage_midstream_failure_two_assistants :
    assistantCount (sendMessage (fun _ => none) 0 draftState
        (FetchOutcome.streamed [['h', 'i']] true)).messages =
      assistantCount draftState.messages + 2 := by
  decide

/-- C6 (amended): every submission accepted from idle appends at least
one and at most two assistant messages: exactly one when the turn fails
before streaming begins or completes normally, and exactly two (the
partial assistant message plus the synthetic error message) when a stream
read throws after streaming began. -/
theorem sendMessage_assistant_message_count (parse : String → Option StreamPart) (now : Nat)
    (st : ConvState) (outcome : FetchOutcome)
    (hin : trimStr st.input ≠ "") (hstr : st.isStreaming = false) :
    assistantCount (sendMessage parse now st outcome).messages =
      assistantCount st.messages +
        (match outcome with
         | FetchOutcome.streamed _ true => 2
         | _ => 1) := by
  rw [sendMessage, if_neg (by simp [hin, hstr])]
  cases outcome with
  | rejected => simp [failTurn, assistantCount, List.filter_append]
  | notOk => simp [failTurn, assistantCount, List.filter_append]
  | noBody => simp [failTurn, assistantCount, List.filter_append]
  | streamed chunks readFails =>
      cases readFails <;> simp [failTurn, assistantCount, List.filter_append]

/-- Witness for `sendMessage_assistant_message_count`: a normally
completing stream appends exactly one assistant message. -/
theorem sendMessage_assistant_message_count_witness :
    assistantCount (sendMessage (fun _ => none) 0 draftState
        (FetchOutcome.streamed [['o', 'k']] false)).messages =
      assistantCount draftState.messages + 1 :=
  sendMessage_assistant_message_count (fun _ => none) 0 draftState
    (FetchOutcome.streamed [['o', 'k']] false) (by decide) rfl

theorem splitNl_snd_no_newline : ∀ s : List Char, '\n' ∉ (splitNl s).2
  | [] => by simp [splitNl]
  | c :: cs => by
      have ih := splitNl_snd_no_newline cs
      by_cases hc : c = '\n'
      · simpa [splitNl, hc] using ih
      · rcases h : splitNl cs with ⟨ls, r⟩
        have ih2 : '\n' ∉ r := by rw [h] at ih; exact ih
        cases ls with
        | nil =>
            simp only [splitNl, if_neg hc, h, consFirst]
            intro hm
            rcases List.mem_cons.mp hm with h1 | h1
            · exact hc h1.symm
            · exact ih2 h1
        | cons l ls1 =>
            simp only [splitNl, if_neg hc, h, consFirst]
            exact ih2

theorem splitNl_of_no_newline : ∀ s : List Char, '\n' ∉ s → splitNl s = ([], s)
  | [] => fun _ => by simp [splitNl]
  | c :: cs => fun h => by
      have hc : ¬ c = '\n' := fun e => h (by rw [e]; exact List.mem_cons_self _ _)
      have ih := splitNl_of_no_newline cs (fun hm => h (List.mem_cons_of_mem c hm))
      simp [splitNl, hc, ih, consFirst]

theorem splitNl_append : ∀ a b : List Char,
    splitNl (a ++ b) = ((splitNl a).1 ++ (splitNl ((splitNl a).2 ++ b)).1,
                        (splitNl ((splitNl a).2 ++ b)).2)
  | [], b => by simp [splitNl]
  | c :: a1, b => by
      have ih := splitNl_append a1 b
      by_cases hc : c = '\n'
      · simp [List.cons_append, splitNl, hc, ih]
      · rcases h1 : splitNl a1 with ⟨ls, r⟩
        rw [h1] at ih
        rcases h2 : splitNl (r ++ b) with ⟨ms, t⟩
        rw [h2] at ih
        cases ls with
        | nil =>
            cases ms with
            | nil => simp [splitNl, hc, h1, h2, ih, consFirst, List.cons_append]
            | cons m ms1 => simp [splitNl, hc, h1, h2, ih, consFirst, List.cons_append]
        | cons l ls1 =>
            simp [splitNl, hc, h1, h2, ih, consFirst, List.cons_append]

theorem feedAll_eq_splitNl : ∀ (cs : List (List Char)) (buf : List Char), '\n' ∉ buf →
    feedAll cs buf = splitNl (buf ++ cs.flatten)
  | [], buf => fun h => by simp [feedAll, splitNl_of_no_newline buf h]
  | chunk :: rest, buf => fun _ => by
      have hresid := splitNl_snd_no_newline (buf ++ chunk)
      have ih := feedAll_eq_splitNl rest (splitNl (buf ++ chunk)).2 hresid
      rw [feedAll, ih, List.flatten_cons, ← List.append_assoc, splitNl_append (buf ++ chunk)]

/-- C4: the decoder is chunk-boundary independent.  For any two ways of
partitioning the same logical character stream into read chunks, the
buffered line splitter emits the same complete-line sequence (and carries
the same residual), and therefore the accumulated assistant message
content — text deltas plus appended tool-result messages — is identical,
for every frame parser. -/
theorem decoder_chunk_boundary_independent (c1 c2 : List (List Char))
    (h : c1.flatten = c2.flatten) :
    feedAll c1 [] = feedAll c2 [] ∧
      ∀ parse : String → Option StreamPart, runDecoder parse c1 = runDecoder parse c2 := by
  have e1 : feedAll c1 [] = splitNl c1.flatten := by
    simpa using feedAll_eq_splitNl c1 [] (by simp)
  have e2 : feedAll c2 [] = splitNl c2.flatten := by
    simpa using feedAll_eq_splitNl c2 [] (by simp)
  have he : feedAll c1 [] = feedAll c2 [] := by rw [e1, e2, h]
  exact ⟨he, fun parse => by rw [runDecoder, runDecoder, he]⟩

/-- Witness for `decoder_chunk_boundary_independent`: a frame split as
"ab" + "\nc" versus "a" + "b\n" + "c" decodes identically. -/
theorem decoder_chunk_boundary_independent_witness :
    ([['a'], ['b', '\n', 'c']] : List (List Char)).flatten =
        ([['a', 'b', '\n'], ['c']] : List (List Char)).flatten ∧
      feedAll [['a'], ['b', '\n', 'c']] [] = feedAll [['a', 'b', '\n'], ['c']] [] :=
  ⟨by decide, (decoder_chunk_boundary_independent _ _ (by decide)).1⟩

theorem charsContain_nil : ∀ l : List Char, charsContain l [] = true
  | [] => rfl
  | h :: hs => by simp [charsContain, charsStartWith]

theorem matchesQueryJs_empty (it : Item) : matchesQueryJs (lowerStr "") it = true := by
  have h : containsSub (lowerStr it.title) (lowerStr "") = true := by
    simp [containsSub, lowerStr, charsContain_nil]
  simp [matchesQueryJs, h]

/-- The result set of `queryItems` as claim C3 words it: the caller's
items filtered by category and status (status defaulting to `todo`), then
— when a text query is present — narrowed to exactly the items whose
title, description or location contains the query case-insensitively as a
substring, returned newest-created-first up to the limit (default 50). -/
def claimedQueryItems (userId : Nat) (db : Db) (args : ListItemsArgs) : List Item :=
  let effectiveStatus := args.status.getD Status.todo
  let filtered := db.items.filter (fun it =>
    it.userId == userId &&
    ((match args.categoryId with
      | some c => it.categoryId == c
      | none => true) &&
     it.status == effectiveStatus))
  let narrowed :=
    match args.query with
    | some q => filtered.filter (matchesQueryJs (lowerStr q))
    | none => filtered
  (sortByCreatedDesc narrowed).take (jsOrDefaultNat args.limit 50)

/-- The amended result set: as `claimedQueryItems`, except that the limit
truncates the newest-first category/status-filtered items BEFORE the text
query narrows them — the order the source applies them in. -/
def amendedQueryItems (userId : Nat) (db : Db) (args : ListItemsArgs) : List Item :=
  let effectiveStatus := args.status.getD Status.todo
  let limited := (sortByCreatedDesc (db.items.filter (fun it =>
    it.userId == userId &&
    ((match args.categoryId with
      | some c => it.categoryId == c
      | none => true) &&
     it.status == effectiveStatus)))).take (jsOrDefaultNat args.limit 50)
  match args.query with
  | some q => limited.filter (matchesQueryJs (lowerStr q))
  | none => limited

/-- A `todo` item of user 1 titled "alpha", created at time 0. -/
def itemAlpha : Item :=
  { id := 1, userId := 1, categoryId := 1, title := "alpha", description := none,
    status := Status.todo, priority := none, url := none, location := none,
    note := none, targetDate := none, actionId := none, imageUrl := none,
    metadata := none, createdAt := 0, updatedAt := 0 }

/-- A newer `todo` item of user 1 titled "beta", created at time 1. -/
def itemBeta : Item :=
  { itemAlpha with id := 2, title := "beta", createdAt := 1, updatedAt := 1 }

/-- A store holding exactly `itemAlpha` and the newer `itemBeta`. -/
def dbPair : Db :=
  { items := [itemAlpha, itemBeta], categories := [], actions := [], nextId := 3, now := 2 }

/-- A query for "alpha" with `limit = 1`. -/
def queryAlphaArgs : ListItemsArgs :=
  { categoryId := none, status := none, query := some "alpha", limit := some 1 }

/-- CORRECTED C3 (counterexample): `listItems` applies the limit BEFORE
the text filter.  With two `todo` items "alpha" (older) and "beta"
(newer), querying "alpha" with limit 1 returns no items — the limit keeps
only the newer "beta", which the text filter then drops — whereas the
claim's filter-then-limit reading would return "alpha". -/
theorem listItems_filter_after_limit_cex :
    (listItems 1 dbPair queryAlphaArgs).data ≠
      some { items := (claimedQueryItems 1 dbPair queryAlphaArgs).map formatRow,
             count := (claimedQueryItems 1 dbPair queryAlphaArgs).length } := by
  decide

/-- C3 (amended): every `queryItems` result is a success — an empty
result is `success:true` with `data:{items:[], count:0}`, never an error —
and the returned rows are exactly the caller's items filtered by category
and status (default `todo`), ordered newest-created-first, truncated to
the limit (default 50), and then — if a text query is present — narrowed
to the items whose title, description, or location contains the query
case-insensitively as a substring.  (The claim's order of limiting and
narrowing is reversed: the source limits before it narrows.) -/
theorem listItems_matches_amended_spec (u : Nat) (db : Db) (args : ListItemsArgs) :
    (listItems u db args).success = true ∧
    (listItems u db args).error = none ∧
    (listItems u db args).data =
      some { items := (amendedQueryItems u db args).map formatRow,
             count := (amendedQueryItems u db args).length } := by
  rcases args with ⟨cat, stat, q, lim⟩
  cases q with
  | none =>
      simp only [listItems, amendedQueryItems]
      split
      next h =>
        rw [List.length_eq_zero] at h
        simp [h]
      next h =>
        simp [List.length_map]
  | some qs =>
      by_cases hq : qs = ""
      · subst hq
        simp only [listItems, amendedQueryItems, eq_self_iff_true, if_true]
        rw [List.filter_eq_self.mpr (fun a _ => matchesQueryJs_empty a)]
        split
        next h =>
          rw [List.length_eq_zero] at h
          simp [h]
        next h =>
          simp [List.length_map]
      · simp only [listItems, amendedQueryItems]
        rw [if_neg hq]
        split
        next h =>
          rw [List.length_eq_zero] at h
          simp [h]
        next h =>
          simp [List.length_map]

/-- C10: a `listItems` call with `limit = 0` behaves exactly as if the
limit had been omitted — JavaScript `limit || 50` treats 0 as falsy, so
the default of 50 applies and the call does not return zero items. -/
theorem listItems_zero_limit_defaults (u : Nat) (db : Db) (c : Option Nat)
    (s : Option Status) (q : Option String) :
    listItems u db { categoryId := c, status := s, query := q, limit := some 0 } =
      listItems u db { categoryId := c, status := s, query := q, limit := none } := by
  rfl

theorem any_iff_filter_pos (l : List α) (p : α → Bool) :
    l.any p = true ↔ 0 < (l.filter p).length := by
  induction l with
  | nil => simp
  | cons x xs ih =>
      by_cases h : p x = true <;> simp [List.any_cons, List.filter_cons, h, ih]

/-- C1: `createItem` refuses near-duplicates and inserts otherwise.  If
some existing `todo`-status item of the caller in the same category has
title similarity at least 0.8 with the requested title, the tool returns
`success:false` with exactly those similar items listed in `data` and the
store unchanged; otherwise it returns `success:true` with the new row's
id, and exactly that row — owned by the caller, in the requested
category, with the requested title and `todo` status — is prepended to
the store. -/
theorem addItem_duplicate_guard (u : Nat) (db : Db) (args : AddItemArgs) :
    ((db.items.filter (fun it =>
        it.userId == u && (it.categoryId == args.categoryId && it.status == Status.todo))).any
        (fun it => decide ((8/10 : ℚ) ≤ calculateSimilarity args.title it.title)) = true →
      (addItem u db args).1.success = false ∧
      (addItem u db args).1.data = AddItemData.similar
        (((db.items.filter (fun it =>
            it.userId == u && (it.categoryId == args.categoryId && it.status == Status.todo))).filter
            (fun it => decide ((8/10 : ℚ) ≤ calculateSimilarity args.title it.title))).map
          (fun it => (it.id, it.title))) ∧
      (addItem u db args).2 = db) ∧
    ((db.items.filter (fun it =>
        it.userId == u && (it.categoryId == args.categoryId && it.status == Status.todo))).any
        (fun it => decide ((8/10 : ℚ) ≤ calculateSimilarity args.title it.title)) = false →
      (addItem u db args).1.success = true ∧
      (addItem u db args).1.data = AddItemData.created db.nextId ∧
      ∃ row : Item, (addItem u db args).2.items = row :: db.items ∧
        row.id = db.nextId ∧ row.userId = u ∧ row.categoryId = args.categoryId ∧
        row.title = args.title ∧ row.status = Status.todo) := by
  constructor
  · intro h
    have hpos : 0 < (findSimilarItems args.title (db.items.filter (fun it =>
        it.userId == u && (it.categoryId == args.categoryId && it.status == Status.todo)))
        (8/10)).length := by
      rw [findSimilarItems_eq_filter]
      exact (any_iff_filter_pos _ _).mp h
    simp only [addItem]
    split
    next =>
      refine ⟨rfl, ?_, rfl⟩
      rw [findSimilarItems_eq_filter]
    next hcond => exact absurd hpos hcond
  · intro h
    have hneg : ¬ 0 < (findSimilarItems args.title (db.items.filter (fun it =>
        it.userId == u && (it.categoryId == args.categoryId && it.status == Status.todo)))
        (8/10)).length := by
      rw [findSimilarItems_eq_filter]
      intro hc
      have := (any_iff_filter_pos _ _).mpr hc
      rw [h] at this
      exact Bool.false_ne_true this
    simp only [addItem]
    split
    next hcond => exact absurd hcond hneg
    next => exact ⟨rfl, rfl, _, rfl, rfl, rfl, rfl, rfl, rfl⟩

/-- An existing `todo` item of user 1: "watch dune part two" in category
3. -/
def dupItem : Item :=
  { id := 5, userId := 1, categoryId := 3, title := "watch dune part two",
    description := none, status := Status.todo, priority := none, url := none,
    location := none, note := none, targetDate := none, actionId := none,
    imageUrl := none, metadata := none, createdAt := 0, updatedAt := 0 }

/-- A store holding exactly `dupItem`. -/
def dupDb : Db :=
  { items := [dupItem], categories := [], actions := [], nextId := 6, now := 1 }

/-- A request to add "Watch Dune Part Two" to category 3. -/
def dupArgs : AddItemArgs :=
  { title := "Watch Dune Part Two", categoryId := 3, description := none,
    location := none, url := none, targetDate := none, priority := none, note := none }

/-- Witness for `addItem_duplicate_guard`: adding "Watch Dune Part Two"
next to the existing "watch dune part two" fails and inserts nothing. -/
theorem addItem_duplicate_guard_witness :
    ((dupDb.items.filter (fun it =>
        it.userId == 1 && (it.categoryId == dupArgs.categoryId && it.status == Status.todo))).any
        (fun it => decide ((8/10 : ℚ) ≤ calculateSimilarity dupArgs.title it.title)) = true) ∧
      (addItem 1 dupDb dupArgs).1.success = false ∧ (addItem 1 dupDb dupArgs).2 = dupDb := by
  have hsim : calculateSimilarity dupArgs.title dupItem.title = 1 := rfl
  have hred : ((dupDb.items.filter (fun it =>
      it.userId == 1 && (it.categoryId == dupArgs.categoryId && it.status == Status.todo))).any
      (fun it => decide ((8/10 : ℚ) ≤ calculateSimilarity dupArgs.title it.title))) =
        (decide ((8/10 : ℚ) ≤ calculateSimilarity dupArgs.title dupItem.title) || false) := rfl
  have hle : (8/10 : ℚ) ≤ 1 := by norm_num
  have hany : ((dupDb.items.filter (fun it =>
      it.userId == 1 && (it.categoryId == dupArgs.categoryId && it.status == Status.todo))).any
      (fun it => decide ((8/10 : ℚ) ≤ calculateSimilarity dupArgs.title it.title))) = true := by
    rw [hred, hsim, Bool.or_false, decide_eq_true hle]
  exact ⟨hany, ((addItem_duplicate_guard 1 dupDb dupArgs).1 hany).1,
    ((addItem_duplicate_guard 1 dupDb dupArgs).1 hany).2.2⟩

theorem mem_insertByCreatedDesc (a x : Item) :
    ∀ l : List Item, a ∈ insertByCreatedDesc x l ↔ a = x ∨ a ∈ l
  | [] => by simp [insertByCreatedDesc]
  | y :: ys => by
      by_cases hc : x.createdAt ≤ y.createdAt
      · simp only [insertByCreatedDesc, if_pos hc, List.mem_cons,
          mem_insertByCreatedDesc a x ys]
        tauto
      · simp only [insertByCreatedDesc, if_neg hc, List.mem_cons]

theorem mem_sortByCreatedDesc (a : Item) : ∀ l : List Item, a ∈ sortByCreatedDesc l ↔ a ∈ l
  | [] => Iff.rfl
  | x :: xs => by
      simp [sortByCreatedDesc, mem_insertByCreatedDesc, mem_sortByCreatedDesc a xs]

theorem findBestMatchLoop_mem (q : String) (th : ℚ) :
    ∀ (l : List Item) (best : Option Item) (s : ℚ) (m : Item),
      findBestMatchLoop q th l best s = some m → best = some m ∨ m ∈ l
  | [], _, _, _ => fun h => Or.inl h
  | x :: xs, best, s, m => fun h => by
      rw [findBestMatchLoop] at h
      split at h
      · rcases findBestMatchLoop_mem q th xs (some x) _ m h with h1 | h1
        · rw [Option.some.injEq] at h1
          exact Or.inr (h1 ▸ List.mem_cons_self _ _)
        · exact Or.inr (List.mem_cons_of_mem _ h1)
      · rcases findBestMatchLoop_mem q th xs best _ m h with h1 | h1
        · exact Or.inl h1
        · exact Or.inr (List.mem_cons_of_mem _ h1)

theorem findBestMatch_mem {q : String} {th : ℚ} {l : List Item} {m : Item}
    (h : findBestMatch q l th = some m) : m ∈ l := by
  rw [findBestMatch] at h
  split at h
  · exact Option.noConfusion h
  · rcases findBestMatchLoop_mem q th l none 0 m h with h1 | h1
    · exact Option.noConfusion h1
    · exact h1

theorem filter_map_pres (f : α → α) (p : α → Bool) (h : ∀ x, p (f x) = p x) :
    ∀ l : List α, (l.map f).filter p = (l.filter p).map f
  | [] => rfl
  | x :: xs => by
      by_cases hx : p x = true <;>
        simp [List.filter_cons, h, hx, filter_map_pres f p h xs]

theorem insertByCreatedDesc_map (f : Item → Item) (hkey : ∀ x, (f x).createdAt = x.createdAt)
    (x : Item) : ∀ l : List Item,
      insertByCreatedDesc (f x) (l.map f) = (insertByCreatedDesc x l).map f
  | [] => rfl
  | y :: ys => by
      by_cases hc : x.createdAt ≤ y.createdAt <;>
        simp [insertByCreatedDesc, hkey, hc, insertByCreatedDesc_map f hkey x ys]

theorem sortByCreatedDesc_map (f : Item → Item) (hkey : ∀ x, (f x).createdAt = x.createdAt) :
    ∀ l : List Item, sortByCreatedDesc (l.map f) = (sortByCreatedDesc l).map f
  | [] => rfl
  | x :: xs => by
      simp [sortByCreatedDesc, sortByCreatedDesc_map f hkey xs,
        insertByCreatedDesc_map f hkey x (sortByCreatedDesc xs)]

theorem findBestMatchLoop_map (q : String) (th : ℚ) (f : Item → Item)
    (ht : ∀ x, (f x).title = x.title) :
    ∀ (l : List Item) (best : Option Item) (s : ℚ),
      findBestMatchLoop q th (l.map f) (best.map f) s =
        (findBestMatchLoop q th l best s).map f
  | [], _, _ => rfl
  | x :: xs, best, s => by
      simp only [List.map_cons, findBestMatchLoop, ht]
      by_cases hc : s < calculateSimilarity q x.title ∧ th ≤ calculateSimilarity q x.title
      · rw [if_pos hc, if_pos hc]
        exact findBestMatchLoop_map q th f ht xs (some x) _
      · rw [if_neg hc, if_neg hc]
        exact findBestMatchLoop_map q th f ht xs best s

theorem findBestMatch_map (q : String) (th : ℚ) (f : Item → Item)
    (ht : ∀ x, (f x).title = x.title) (l : List Item) :
    findBestMatch q (l.map f) th = (findBestMatch q l th).map f := by
  cases l with
  | nil => rfl
  | cons x xs =>
      simp only [findBestMatch, List.map_cons, List.isEmpty_cons, Bool.false_eq_true,
        if_false]
      exact findBestMatchLoop_map q th f ht (x :: xs) none 0

/-- The row update `toggleItem` performs: set the status and `updatedAt`
of the row whose id is `mid`, leave every other row unchanged. -/
def toggleUpd (mid : Nat) (st : Status) (ts : Nat) (it : Item) : Item :=
  if it.id == mid then { it with status := st, updatedAt := ts } else it

theorem toggleUpd_userId (mid : Nat) (st : Status) (ts : Nat) (it : Item) :
    (toggleUpd mid st ts it).userId = it.userId := by
  unfold toggleUpd; split <;> rfl

theorem toggleUpd_createdAt (mid : Nat) (st : Status) (ts : Nat) (it : Item) :
    (toggleUpd mid st ts it).createdAt = it.createdAt := by
  unfold toggleUpd; split <;> rfl

theorem toggleUpd_title (mid : Nat) (st : Status) (ts : Nat) (it : Item) :
    (toggleUpd mid st ts it).title = it.title := by
  unfold toggleUpd; split <;> rfl

theorem toggleUpd_id (mid : Nat) (st : Status) (ts : Nat) (it : Item) :
    (toggleUpd mid st ts it).id = it.id := by
  unfold toggleUpd; split <;> rfl

theorem toggleUpd_self (m : Item) (st : Status) (ts : Nat) :
    toggleUpd m.id st ts m = { m with status := st, updatedAt := ts } := by
  simp [toggleUpd]

/-- Characterisation of `toggleItem` when the fuzzy resolution finds a
match `m`: the result is a success carrying `m`'s id and title and the
target status, and the store maps `toggleUpd` over its rows. -/
theorem toggleItem_matched (u : Nat) (db : Db) (ident : String) (ns : Option Status) (m : Item)
    (h : findBestMatch ident (sortByCreatedDesc (db.items.filter (fun it => it.userId == u)))
      (6/10) = some m) :
    toggleItem u db { identifier := ident, newStatus := ns } =
      ({ success := true,
         data := some { itemId := m.id,
                        newStatus := ns.getD
                          (if m.status == Status.todo then Status.done else Status.todo),
                        title := m.title },
         message := "Marked \"" ++ m.title ++ "\" as " ++
           statusStr (ns.getD (if m.status == Status.todo then Status.done else Status.todo))
           ++ "!",
         error := none },
       { db with
           items := db.items.map
             (toggleUpd m.id
               (ns.getD (if m.status == Status.todo then Status.done else Status.todo))
               db.now),
           now := db.now + 1 }) := by
  rcases hl : sortByCreatedDesc (db.items.filter (fun it => it.userId == u)) with _ | ⟨y, ys⟩
  · rw [hl] at h
    simp [findBestMatch] at h
  · rw [hl] at h
    simp only [toggleItem, hl, h, List.isEmpty_cons, Bool.false_eq_true, if_false]
    rfl

/-- C2: `toggleItem` resolves its identifier by best-match similarity at
threshold 0.6 over ALL of the caller's items regardless of status.  When
no candidate clears the threshold the tool fails with an error and the
store is unchanged; when a match `m` is found the tool succeeds with
`m`'s id and title, the target status is `newStatus` when given and the
opposite of `m`'s current status otherwise, and exactly `m`'s row is
updated.  In particular a `todo` item with no explicit target becomes
`done`, and a second identical call returns it to `todo`. -/
theorem toggleItem_resolution (u : Nat) (db : Db) (ident : String) (ns : Option Status) :
    (findBestMatch ident (sortByCreatedDesc (db.items.filter (fun it => it.userId == u)))
        (6/10) = none →
      (toggleItem u db { identifier := ident, newStatus := ns }).1.success = false ∧
      (toggleItem u db { identifier := ident, newStatus := ns }).1.error ≠ none ∧
      (toggleItem u db { identifier := ident, newStatus := ns }).2 = db) ∧
    (∀ m : Item,
      findBestMatch ident (sortByCreatedDesc (db.items.filter (fun it => it.userId == u)))
        (6/10) = some m →
      (toggleItem u db { identifier := ident, newStatus := ns }).1.success = true ∧
      (toggleItem u db { identifier := ident, newStatus := ns }).1.data =
        some { itemId := m.id,
               newStatus := ns.getD
                 (if m.status == Status.todo then Status.done else Status.todo),
               title := m.title } ∧
      (toggleItem u db { identifier := ident, newStatus := ns }).2.items =
        db.items.map (toggleUpd m.id
          (ns.getD (if m.status == Status.todo then Status.done else Status.todo)) db.now)) ∧
    (∀ m : Item,
      findBestMatch ident (sortByCreatedDesc (db.items.filter (fun it => it.userId == u)))
        (6/10) = some m →
      m.status = Status.todo → ns = none →
      (toggleItem u db { identifier := ident, newStatus := ns }).1.data =
        some { itemId := m.id, newStatus := Status.done, title := m.title } ∧
      (toggleItem u (toggleItem u db { identifier := ident, newStatus := ns }).2
          { identifier := ident, newStatus := none }).1.data =
        some { itemId := m.id, newStatus := Status.todo, title := m.title } ∧
      (∀ it ∈ (toggleItem u (toggleItem u db { identifier := ident, newStatus := ns }).2
          { identifier := ident, newStatus := none }).2.items,
        it.id = m.id → it.status = Status.todo)) := by
  refine ⟨fun h => ?_, fun m h => ?_, fun m h hm hns => ?_⟩
  · rcases hl : sortByCreatedDesc (db.items.filter (fun it => it.userId == u)) with _ | ⟨y, ys⟩
    · simp [toggleItem, hl]
    · rw [hl] at h
      simp [toggleItem, hl, h]
  · rw [toggleItem_matched u db ident ns m h]
    exact ⟨rfl, rfl, rfl⟩
  · subst hns
    have htgt : (if m.status == Status.todo then Status.done else Status.todo) = Status.done := by
      rw [hm]; rfl
    have e1 := toggleItem_matched u db ident none m h
    rw [htgt] at e1
    simp only [Option.getD_none] at e1
    have hpf : ∀ it : Item,
        ((toggleUpd m.id Status.done db.now it).userId == u) = (it.userId == u) := fun it => by
      rw [toggleUpd_userId]
    have h2 : findBestMatch ident
        (sortByCreatedDesc ((({ db with
            items := db.items.map (toggleUpd m.id Status.done db.now),
            now := db.now + 1 } : Db)).items.filter (fun it => it.userId == u))) (6/10) =
          some (toggleUpd m.id Status.done db.now m) := by
      show findBestMatch ident
        (sortByCreatedDesc ((db.items.map (toggleUpd m.id Status.done db.now)).filter
          (fun it => it.userId == u))) (6/10) = _
      rw [filter_map_pres _ _ hpf, sortByCreatedDesc_map _ (toggleUpd_createdAt m.id Status.done db.now),
        findBestMatch_map _ _ _ (toggleUpd_title m.id Status.done db.now), h]
      rfl
    have e2 := toggleItem_matched u
      { db with items := db.items.map (toggleUpd m.id Status.done db.now), now := db.now + 1 }
      ident none (toggleUpd m.id Status.done db.now m) h2
    rw [toggleUpd_self] at e2
    refine ⟨?_, ?_, ?_⟩
    · rw [e1]
    · rw [e1]
      dsimp only
      rw [e2]
      rfl
    · rw [e1]
      dsimp only
      rw [e2]
      dsimp only
      intro it hit hid
      rcases List.mem_map.mp hit with ⟨y, hy, rfl⟩
      rw [toggleUpd_id] at hid
      by_cases hyid : (y.id == m.id) = true
      · simp [toggleUpd, hyid]
      · exact absurd (by exact beq_iff_eq.mpr hid) hyid

/-- A `todo` item of user 1 titled "try jade palace". -/
def jadeItem : Item :=
  { id := 7, userId := 1, categoryId := 4, title := "try jade palace",
    description := none, status := Status.todo, priority := none, url := none,
    location := none, note := none, targetDate := none, actionId := none,
    imageUrl := none, metadata := none, createdAt := 0, updatedAt := 0 }

/-- A store holding exactly `jadeItem`. -/
def jadeDb : Db :=
  { items := [jadeItem], categories := [], actions := [], nextId := 8, now := 5 }

/-- Witness for `toggleItem_resolution`: toggling "Try Jade Palace" once
marks the `todo` item done; an identical second call returns it to
`todo`. -/
theorem toggleItem_resolution_witness :
    (toggleItem 1 jadeDb { identifier := "Try Jade Palace", newStatus := none }).1.data =
        some { itemId := 7, newStatus := Status.done, title := "try jade palace" } ∧
      (toggleItem 1
          (toggleItem 1 jadeDb { identifier := "Try Jade Palace", newStatus := none }).2
          { identifier := "Try Jade Palace", newStatus := none }).1.data =
        some { itemId := 7, newStatus := Status.todo, title := "try jade palace" } := by
  have hscore : calculateSimilarity "Try Jade Palace" jadeItem.title = 1 := rfl
  have hmatch : findBestMatch "Try Jade Palace" [jadeItem] (6/10) = some jadeItem := by
    rw [findBestMatch]
    simp only [List.isEmpty_cons, Bool.false_eq_true, if_false, findBestMatchLoop]
    rw [hscore]
    rw [if_pos ⟨by norm_num, by norm_num⟩]
  have hmatch2 : findBestMatch "Try Jade Palace"
      (sortByCreatedDesc (jadeDb.items.filter (fun it => it.userId == 1))) (6/10) =
        some jadeItem := by
    rw [show sortByCreatedDesc (jadeDb.items.filter (fun it => it.userId == 1)) = [jadeItem]
      from rfl]
    exact hmatch
  have h3 := (toggleItem_resolution 1 jadeDb "Try Jade Palace" none).2.2 jadeItem hmatch2 rfl rfl
  exact ⟨h3.1, h3.2.1⟩

theorem filter_user_key (u : Nat) (P : Item → Bool) :
    ∀ l : List Item, l.filter (fun it => it.userId == u && P it) =
      (l.filter (fun it => it.userId == u)).filter P
  | [] => rfl
  | x :: xs => by
      by_cases h1 : (x.userId == u) = true
      · by_cases h2 : P x = true <;>
          simp [List.filter_cons, h1, h2, filter_user_key u P xs]
      · simp [List.filter_cons, h1, filter_user_key u P xs]

theorem filter_user_sub (u : Nat) (P : Item → Bool) {l1 l2 : List Item}
    (hf : l1.filter (fun it => it.userId == u) = l2.filter (fun it => it.userId == u)) :
    l1.filter (fun it => it.userId == u && P it) =
      l2.filter (fun it => it.userId == u && P it) := by
  rw [filter_user_key, filter_user_key, hf]

theorem filter_map_invariant {f : Item → Item} {p : Item → Bool}
    (hp : ∀ it, p (f it) = p it) :
    ∀ l : List Item, (∀ it ∈ l, p it = true → f it = it) →
      (l.map f).filter p = l.filter p
  | [] => fun _ => rfl
  | x :: xs => fun hinv => by
      have hrest := filter_map_invariant hp xs
        (fun it h => hinv it (List.mem_cons_of_mem _ h))
      by_cases hpx : p x = true
      · simp [List.filter_cons, hp, hpx, hinv x (List.mem_cons_self _ _) hpx, hrest]
      · simp [List.filter_cons, hp, hpx, hrest]

theorem getActionIdForCategory_congr (db db2 : Db) (c : Nat)
    (hc : db.categories = db2.categories) (ha : db.actions = db2.actions) :
    getActionIdForCategory db c = getActionIdForCategory db2 c := by
  rw [getActionIdForCategory, getActionIdForCategory, hc, ha]

/-- C7: the tools are bound to the caller identity.  For every pair of
stores that agree on the caller's rows (and on the shared reference
tables, fresh-id supply and clock), each tool produces the same result —
so no result depends on another user's rows — and the mutating tools
(`addItem`, `toggleItem`) leave every row owned by a different user
exactly as it was (given the primary-key invariant that item ids are
distinct). -/
theorem tools_identity_scoped (u : Nat) (db db2 : Db)
    (argsA : AddItemArgs) (argsL : ListItemsArgs) (argsT : ToggleItemArgs)
    (hids : (db.items.map (fun it => it.id)).Nodup)
    (hn : db.nextId = db2.nextId) (hw : db.now = db2.now)
    (hc : db.categories = db2.categories) (ha : db.actions = db2.actions)
    (hf : db.items.filter (fun it => it.userId == u) =
      db2.items.filter (fun it => it.userId == u)) :
    ((addItem u db argsA).2.items.filter (fun it => !(it.userId == u)) =
      db.items.filter (fun it => !(it.userId == u))) ∧
    ((toggleItem u db argsT).2.items.filter (fun it => !(it.userId == u)) =
      db.items.filter (fun it => !(it.userId == u))) ∧
    (addItem u db argsA).1 = (addItem u db2 argsA).1 ∧
    listItems u db argsL = listItems u db2 argsL ∧
    (toggleItem u db argsT).1 = (toggleItem u db2 argsT).1 := by
  refine ⟨?_, ?_, ?_, ?_, ?_⟩
  · -- addItem frame condition
    simp only [addItem]
    split
    · rfl
    · simp [List.filter_cons]
  · -- toggleItem frame condition
    simp only [toggleItem]
    split
    · rfl
    · split
      · rfl
      next m hm =>
        have hmem2 : m ∈ db.items.filter (fun it => it.userId == u) :=
          (mem_sortByCreatedDesc m _).mp (findBestMatch_mem hm)
        have hmdb : m ∈ db.items := (List.mem_filter.mp hmem2).1
        have hmu : (m.userId == u) = true := (List.mem_filter.mp hmem2).2
        have hinj := List.inj_on_of_nodup_map hids
        apply filter_map_invariant
        · intro it
          by_cases hid : (it.id == m.id) = true <;> simp [hid]
        · intro it hit hne
          have hne2 : (it.userId == u) = false := by simpa using hne
          by_cases hid : (it.id == m.id) = true
          · have heq : it = m := hinj hit hmdb (beq_iff_eq.mp hid)
            rw [heq, hmu] at hne2
            exact absurd hne2 (by simp)
          · simp [hid]
  · -- addItem result noninterference
    have hE : db.items.filter (fun it =>
        it.userId == u && (it.categoryId == argsA.categoryId && it.status == Status.todo)) =
      db2.items.filter (fun it =>
        it.userId == u && (it.categoryId == argsA.categoryId && it.status == Status.todo)) :=
      filter_user_sub u _ hf
    have hact := getActionIdForCategory_congr db db2 argsA.categoryId hc ha
    simp only [addItem, hE, hact, hn, hw]
    by_cases hcond : 0 < (findSimilarItems argsA.title (db2.items.filter (fun it =>
        it.userId == u && (it.categoryId == argsA.categoryId && it.status == Status.todo)))
        (8/10)).length
    · rw [if_pos hcond, if_pos hcond]
    · rw [if_neg hcond, if_neg hcond]
  · -- listItems result noninterference
    have hL : db.items.filter (fun it =>
        it.userId == u &&
        ((match argsL.categoryId with
          | some c => it.categoryId == c
          | none => true) &&
         it.status == argsL.status.getD Status.todo)) =
      db2.items.filter (fun it =>
        it.userId == u &&
        ((match argsL.categoryId with
          | some c => it.categoryId == c
          | none => true) &&
         it.status == argsL.status.getD Status.todo)) :=
      filter_user_sub u _ hf
    simp only [listItems, hL]
  · -- toggleItem result noninterference
    have hT : sortByCreatedDesc (db.items.filter (fun it => it.userId == u)) =
        sortByCreatedDesc (db2.items.filter (fun it => it.userId == u)) := by rw [hf]
    simp only [toggleItem, hT, hw]
    by_cases hcond :
        (sortByCreatedDesc (db2.items.filter (fun it => it.userId == u))).isEmpty = true
    · rw [if_pos hcond, if_pos hcond]
    · rw [if_neg hcond, if_neg hcond]
      rcases hm : findBestMatch argsT.identifier
          (sortByCreatedDesc (db2.items.filter (fun it => it.userId == u))) (6/10)
        with _ | m <;> simp only [hm]

/-- An item owned by user 1 (id 1). -/
def scopeItemA : Item :=
  { id := 1, userId := 1, categoryId := 1, title := "mine", description := none,
    status := Status.todo, priority := none, url := none, location := none,
    note := none, targetDate := none, actionId := none, imageUrl := none,
    metadata := none, createdAt := 0, updatedAt := 0 }

/-- An item owned by user 2 (id 2). -/
def scopeItemB : Item :=
  { scopeItemA with id := 2, userId := 2, title := "theirs" }

/-- An item owned by user 5 (id 9). -/
def scopeItemC : Item :=
  { scopeItemA with id := 9, userId := 5, title := "other" }

/-- A store with user 1's row and user 2's row. -/
def scopeDb : Db :=
  { items := [scopeItemA, scopeItemB], categories := [], actions := [], nextId := 3, now := 9 }

/-- A store with user 1's row and a different foreign row. -/
def scopeDb2 : Db :=
  { items := [scopeItemA, scopeItemC], categories := [], actions := [], nextId := 3, now := 9 }

/-- An unfiltered `listItems` request. -/
def scopeArgsL : ListItemsArgs :=
  { categoryId := none, status := none, query := none, limit := none }

/-- A simple `addItem` request. -/
def scopeArgsA : AddItemArgs :=
  { title := "x", categoryId := 1, description := none, location := none,
    url := none, targetDate := none, priority := none, note := none }

/-- A simple `toggleItem` request. -/
def scopeArgsT : ToggleItemArgs := { identifier := "x", newStatus := none }

/-- Witness for `tools_identity_scoped`: two stores agreeing on user 1's
rows yield the same `listItems` answer for user 1. -/
theorem tools_identity_scoped_witness :
    ((scopeDb.items.map (fun it => it.id)).Nodup ∧
      scopeDb.items.filter (fun it => it.userId == 1) =
        scopeDb2.items.filter (fun it => it.userId == 1)) ∧
    listItems 1 scopeDb scopeArgsL = listItems 1 scopeDb2 scopeArgsL :=
  ⟨⟨by decide, by decide⟩,
    (tools_identity_scoped 1 scopeDb scopeDb2 scopeArgsA scopeArgsL scopeArgsT
      (by decide) rfl rfl rfl rfl (by decide)).2.2.2.1⟩

end Everly
